import Mathlib

/-!
Verification of the Solar-Optimization repository against its
natural-language specification.

The repository is a web application that sizes a co-located solar PV
array and battery energy storage system (BESS) by solving an LP/MILP
over hourly energy flows, then reports NPV and IRR of the optimum.
The JavaScript frontend (upload form validation, progress polling,
results display, revenue chart) is embedded from the files under
`src/frontend` and `src/unnamed`; the Python optimization engine is not
among the repository's files, so the model builder, financial engine and
progress reporter are modelled from the specification (each such
definition says so in its doc comment).

Numbers are embedded as exact rationals (`ℚ`): JavaScript floating-point
artifacts (binary rounding of `toFixed`, non-associativity of float
addition) are not modelled.
-/

namespace SolarOpt

/-! ## Result payload field names

`ResultsDisplay.jsx` reads a fixed set of keys from the `results` object
it receives; `PLAN.md`'s response-payload example declares the keys the
backend produces.  Both lists are transcribed key for key. -/

/-- The keys `ResultsDisplay.jsx` reads from `results`, in order of first
access (lines 32, 36, 40, 51, 55, 59, 65, 73, 76). -/
def resultsDisplayFields : List String :=
  ["optimal_pv_size_mw", "optimal_bess_size_mwh", "capex_total",
   "npv", "irr", "total_revenue_25_years", "monthly_revenues",
   "representative_days_used", "scale_factor"]

/-- The keys of the `results` object in `PLAN.md`'s response-payload
example (lines 123-134). -/
def planResultFields : List String :=
  ["optimal_pv_size_mw", "optimal_bess_size_mwh", "npv", "irr",
   "capex_total", "monthly_revenues", "25_year_total_revenue"]

/-- Modelled from the spec: the result-payload field list of spec §6,
`{optimal_pv_size_mw, optimal_bess_size_mwh, npv, irr, capex_total,
monthly_revenues, total_revenue_over_horizon, representative_days_used?,
scale_factor?}`, with the optional fields included.  Stated from the
spec's words to be compared with `resultsDisplayFields`, which is
transcribed from the code. -/
def specResultFields : List String :=
  ["optimal_pv_size_mw", "optimal_bess_size_mwh", "npv", "irr",
   "capex_total", "monthly_revenues", "total_revenue_over_horizon",
   "representative_days_used", "scale_factor"]

/-- `specResultFields` with the spec's total-revenue name replaced by the
name the client actually reads. -/
def amendedResultFields : List String :=
  specResultFields.map
    (fun f => if f = "total_revenue_over_horizon" then "total_revenue_25_years" else f)

/-! ## `formatPercent` (ResultsDisplay.jsx lines 17-20)

```js
const formatPercent = (value) => {
  if (!value || isNaN(value)) return 'N/A';
  return `${(value * 100).toFixed(2)}%`;
};
```

The argument is `results.irr`, a JSON number or null (undefined when the
key is absent).  JavaScript truthiness: `!value` holds for `null`,
`undefined`, `NaN` and `0`; `isNaN` additionally holds for `NaN` (and
`undefined`).  `toFixed(2)` is modelled as exact rounding of the
percentage to hundredths. -/

/-- A JavaScript value in an IRR slot: `null`, `undefined`, `NaN`, or a
(finite) number, the latter modelled as an exact rational. -/
inductive JSVal where
  | jsNull
  | jsUndefined
  | jsNaN
  | jsNum (q : ℚ)
  deriving DecidableEq

/-- What `formatPercent` renders: the `'N/A'` sentinel, or a percentage
carrying the displayed value in hundredths of a percent (two decimals). -/
inductive PercentText where
  | na
  | percent (hundredths : ℤ)
  deriving DecidableEq

/-- Exact-arithmetic model of JavaScript `x.toFixed(2)`: the number of
hundredths displayed, rounding to nearest. -/
def toFixed2 (x : ℚ) : ℤ := round (x * 100)

/-- `formatPercent` from `ResultsDisplay.jsx`: `!value || isNaN(value)`
yields `'N/A'`; otherwise the value is scaled by 100 and shown with two
decimals. -/
def formatPercent : JSVal → PercentText
  | .jsNull => .na
  | .jsUndefined => .na
  | .jsNaN => .na
  | .jsNum q => if q = 0 then .na else .percent (toFixed2 (q * 100))

/-! ## `MonthlyRevenueChart` aggregation (MonthlyRevenueChart.jsx lines 13-60)

The component folds `data` into a plain object keyed by `entry.year`,
adding `entry.revenue` into the slot for that year, then takes
`Object.values`.  The years are small non-negative integers, so they are
array-index-like keys and JavaScript enumerates them in ascending
numeric order regardless of insertion order; the embedding therefore
lists the distinct years in ascending order, each with the sum of the
revenues carrying that year. -/

/-- One element of `results.monthly_revenues`: `{year, month, revenue}`.
Only `year` and `revenue` are read by the chart. -/
structure RevenueEntry where
  year : ℤ
  month : ℤ
  revenue : ℚ
  deriving DecidableEq

/-- The chart's per-year aggregation: one row per distinct year (in the
ascending order JavaScript enumerates integer object keys), whose
revenue is the sum over the input entries with that year. -/
def chartRows (data : List RevenueEntry) : List (ℤ × ℚ) :=
  ((data.map RevenueEntry.year).dedup.insertionSort (· ≤ ·)).map
    (fun y => (y, ((data.filter (fun e => e.year = y)).map RevenueEntry.revenue).sum))

/-- `chartData` of the component: `if (!data || data.length === 0) return []`,
else the per-year aggregation.  `none` models a null/undefined prop. -/
def chartDataOf : Option (List RevenueEntry) → List (ℤ × ℚ)
  | none => []
  | some data => if data.isEmpty then [] else chartRows data

/-- What the component renders. -/
inductive ChartRender where
  | noDataMessage
  | chart (rows : List (ℤ × ℚ))
  deriving DecidableEq

/-- The component's render: `if (chartData.length === 0)` it shows
"No revenue data available", else the line chart of `chartData`. -/
def renderChart (input : Option (List RevenueEntry)) : ChartRender :=
  if (chartDataOf input).isEmpty then .noDataMessage else .chart (chartDataOf input)

/-! ## `UploadForm.validateForm` (src/unnamed/part_006 lines 59-108)

Each form value is a string.  `!value || value.trim() === ''` detects a
blank; otherwise `parseFloat` yields `NaN` (non-numeric) or a number.
The embedding classifies a field's content into those three cases, the
numeric one carrying the parsed value as an exact rational. -/

/-- A text field's content as `validateForm` classifies it. -/
inductive FieldValue where
  | blank
  | nonNumeric
  | num (q : ℚ)
  deriving DecidableEq

/-- The per-field check of the `requiredFields.forEach` loop:
blank ⇒ `'This field is required'`; `isNaN(parseFloat(value)) ||
parseFloat(value) <= 0` ⇒ `'Must be a positive number'`. -/
def requiredFieldError : FieldValue → Option String
  | .blank => some "This field is required"
  | .nonNumeric => some "Must be a positive number"
  | .num q => if q ≤ 0 then some "Must be a positive number" else none

/-- The final error on `discountRate`: the required-field check, then
(for a non-blank value whose parse is a number) `if (rate < 0 || rate > 1)`
overwrites it with the range message. -/
def discountRateError (v : FieldValue) : Option String :=
  match v with
  | .num q =>
      if q < 0 ∨ 1 < q then some "Discount rate must be between 0 and 1 (e.g., 0.08 for 8%)"
      else requiredFieldError (.num q)
  | v => requiredFieldError v

/-- The check on the optional fields `pvMaxSizeMw` / `bessMaxSizeMwh`:
skipped when the value is falsy (blank), otherwise
`isNaN(parseFloat(v)) || parseFloat(v) <= 0` ⇒ error. -/
def optionalFieldError : FieldValue → Option String
  | .blank => none
  | .nonNumeric => some "Must be a positive number"
  | .num q => if q ≤ 0 then some "Must be a positive number" else none

/-- The state `validateForm` reads: whether each file input holds a file,
and the text of each numeric field. -/
structure UploadFormData where
  pvProductionFile : Bool
  pricingFile : Bool
  pvCapexPerMw : FieldValue
  bessCapexPerMwh : FieldValue
  discountRate : FieldValue
  interconnectionCapacityMw : FieldValue
  onsiteLoadPricePerMwh : FieldValue
  onsiteLoadMaxMw : FieldValue
  yoyPriceEscalationRate : FieldValue
  pvMaxSizeMw : FieldValue
  bessMaxSizeMwh : FieldValue

/-- The `newErrors` object `validateForm` builds (one slot per key it can
set). -/
structure FormErrors where
  pvProduction : Option String
  pricing : Option String
  pvCapexPerMw : Option String
  bessCapexPerMwh : Option String
  discountRate : Option String
  interconnectionCapacityMw : Option String
  onsiteLoadPricePerMwh : Option String
  onsiteLoadMaxMw : Option String
  yoyPriceEscalationRate : Option String
  pvMaxSizeMw : Option String
  bessMaxSizeMwh : Option String

/-- `validateForm`: file-presence checks, the required-numeric-field
loop, the discount-rate range check (which may overwrite the loop's
entry), and the optional-field checks. -/
def validateForm (f : UploadFormData) : FormErrors where
  pvProduction := if f.pvProductionFile then none else some "PV production CSV file is required"
  pricing := if f.pricingFile then none else some "Pricing CSV file is required"
  pvCapexPerMw := requiredFieldError f.pvCapexPerMw
  bessCapexPerMwh := requiredFieldError f.bessCapexPerMwh
  discountRate := discountRateError f.discountRate
  interconnectionCapacityMw := requiredFieldError f.interconnectionCapacityMw
  onsiteLoadPricePerMwh := requiredFieldError f.onsiteLoadPricePerMwh
  onsiteLoadMaxMw := requiredFieldError f.onsiteLoadMaxMw
  yoyPriceEscalationRate := requiredFieldError f.yoyPriceEscalationRate
  pvMaxSizeMw := optionalFieldError f.pvMaxSizeMw
  bessMaxSizeMwh := optionalFieldError f.bessMaxSizeMwh

/-- `return Object.keys(newErrors).length === 0`: the form is valid
exactly when no error was recorded. -/
def formIsValid (f : UploadFormData) : Bool :=
  let e := validateForm f
  e.pvProduction.isNone && e.pricing.isNone && e.pvCapexPerMw.isNone &&
  e.bessCapexPerMwh.isNone && e.discountRate.isNone &&
  e.interconnectionCapacityMw.isNone && e.onsiteLoadPricePerMwh.isNone &&
  e.onsiteLoadMaxMw.isNone && e.yoyPriceEscalationRate.isNone &&
  e.pvMaxSizeMw.isNone && e.bessMaxSizeMwh.isNone

/-- Spec §8 Scenario A as form input: capex $0/MW and $0/MWh, discount
rate 0.08, interconnection cap 100 MW, on-site cap 0 MW, flat on-site
price 50, escalation 0, no ceilings, both files supplied. -/
def scenarioAForm : UploadFormData :=
  ⟨true, true, .num 0, .num 0, .num (2/25), .num 100, .num 50, .num 0,
   .num 0, .blank, .blank⟩

/-- A fully-populated form whose only noteworthy value is a discount
rate of exactly 1. -/
def discountOneForm : UploadFormData :=
  ⟨true, true, .num 1000000, .num 300000, .num 1, .num 100, .num 50,
   .num 20, .num 1, .blank, .blank⟩

/-! ## Progress polling and result delivery
(src/unnamed/part_005 `ProgressIndicator`, src/unnamed/part_003 `App`)

Each poll reads `{status, progress, message, results}`.  On
`'completed'` the indicator stops and calls `onComplete(statusData.results)`;
on `'failed'` it stops and calls `onError(statusData.message || '...')`;
otherwise it keeps polling.  `App` wires `onComplete` to store the
results and `onError` to store the error message. -/

/-- One `/api/status/{task_id}` payload as the poller reads it; `α` is
the opaque results object. -/
structure StatusData (α : Type) where
  status : String
  progress : Option ℚ
  message : Option String
  results : Option α

/-- What one poll iteration does after reading the status payload. -/
inductive PollAction (α : Type) where
  | keepPolling
  | complete (r : Option α)
  | fail (msg : String)

/-- The branch of the poll callback in `ProgressIndicator` (part_005
lines 20-30): completed ⇒ deliver `statusData.results`; failed ⇒ deliver
`statusData.message || 'Optimization failed'`; otherwise poll again. -/
def pollStep {α : Type} (s : StatusData α) : PollAction α :=
  if s.status = "completed" then .complete s.results
  else if s.status = "failed" then .fail (s.message.getD "Optimization failed")
  else .keepPolling

/-- `App`'s state: the in-flight task id, the stored results, the stored
error message. -/
structure AppState (α : Type) where
  currentTaskId : Option String
  results : Option α
  error : Option String

/-- `handleOptimizationStart`: a fresh solve clears results and error. -/
def appStart (α : Type) (taskId : String) : AppState α :=
  ⟨some taskId, none, none⟩

/-- `App`'s reaction to one poll outcome: `handleOptimizationComplete`
stores the results, `handleOptimizationError` stores the message; both
clear the task id. -/
def appApply {α : Type} (st : AppState α) : PollAction α → AppState α
  | .complete r => ⟨none, r, st.error⟩
  | .fail m => ⟨none, st.results, some m⟩
  | .keepPolling => st

/-! ## Financial engine: NPV versus the solver objective

The financial module (`models/financial.py`) is not among the
repository's files; the objective's discounting convention is taken from
`PLAN.md` (lines 153-165) and the NPV formula from the spec. -/

/-- Discounted sum `Σ_i l[i] / (1+r)^(k+i)`: the common shape of the NPV
sum and of the objective's revenue term, differing only in the starting
exponent `k`. -/
def discountedSum (r : ℚ) : List ℚ → ℕ → ℚ
  | [], _ => 0
  | c :: t, k => c / (1 + r) ^ k + discountedSum r t (k + 1)

/-- Modelled from the spec: the financial engine's
`NPV(cashFlows, discountRate) = Σ_y cashFlows[y] / (1+discountRate)^y`
(y = 0..horizon), `models/financial.py` being absent from the
repository's files. -/
def npv (cashFlows : List ℚ) (r : ℚ) : ℚ := discountedSum r cashFlows 0

/-- The solver objective per `PLAN.md`:
`-CAPEX + Σ_y netRevenue[y] / (1 + discount_rate)^(y-1)` with years
numbered from 1, so the exponent over the year-revenue list starts
at 0. -/
def objectiveValue (netRevenue : List ℚ) (capex r : ℚ) : ℚ :=
  discountedSum r netRevenue 0 - capex

/-- The extractor's cash-flow series (`PLAN.md` optimization algorithm
step 2, spec §4.4): year 0 is `-CAPEX`, years 1..horizon the annual net
revenues. -/
def cashFlows (netRevenue : List ℚ) (capex : ℚ) : List ℚ :=
  (-capex) :: netRevenue

/-- Shifting the starting exponent of a discounted sum divides it by
`(1+r)`. -/
theorem discountedSum_succ (r : ℚ) (hr : 1 + r ≠ 0) (l : List ℚ) :
    ∀ k : ℕ, discountedSum r l (k + 1) = discountedSum r l k / (1 + r) := by
  induction l with
  | nil => intro k; simp [discountedSum]
  | cons c t ih =>
      intro k
      simp only [discountedSum, ih (k + 1)]
      rw [pow_succ]
      field_simp
      ring

/-! ## Progress reporter state machine

The engine-side reporter (`utils/progress.py`, the Celery task) is not
among the repository's files.  The state machine is modelled from spec
§4.5: `PENDING → PROCESSING → {COMPLETED | FAILED}`, `PROCESSING`
carrying a sub-phase with percentage band 0-10 (`building_model`),
10-70 (`solving`) or 70-100 (`extracting_financials`).  The observed
run recorded in `src/backend/TESTING_E2E.md` (expected output, the
polling log) is transcribed as a concrete trace. -/

/-- A `PROCESSING` sub-phase. -/
inductive SubPhase where
  | building_model
  | solving
  | extracting_financials
  deriving DecidableEq

/-- The position of a sub-phase in the engine's fixed order. -/
def SubPhase.rank : SubPhase → ℕ
  | .building_model => 0
  | .solving => 1
  | .extracting_financials => 2

/-- Lower end of a sub-phase's percentage band. -/
def SubPhase.bandLo : SubPhase → ℚ
  | .building_model => 0
  | .solving => 10
  | .extracting_financials => 70

/-- Upper end of a sub-phase's percentage band. -/
def SubPhase.bandHi : SubPhase → ℚ
  | .building_model => 10
  | .solving => 70
  | .extracting_financials => 100

/-- A task status as the reporter exposes it. -/
inductive TaskStatus where
  | pending
  | processing (phase : SubPhase)
  | completed
  | failed
  deriving DecidableEq

/-- Position of a status along `PENDING → PROCESSING → terminal`. -/
def TaskStatus.rank : TaskStatus → ℕ
  | .pending => 0
  | .processing _ => 1
  | .completed => 2
  | .failed => 2

/-- Modelled from the spec: one `ProgressState` triple
`{phase, percent, message}` of spec §3/§4.5. -/
structure ProgressState where
  status : TaskStatus
  percent : ℚ
  message : String
  deriving DecidableEq

/-- Modelled from the spec: a state the reporter may expose — percent in
[0,100], a `PROCESSING` percent inside its sub-phase's band, `PENDING`
at 0 and `COMPLETED` at 100. -/
def ProgressState.valid (s : ProgressState) : Bool :=
  decide (0 ≤ s.percent) && decide (s.percent ≤ 100) &&
  (match s.status with
   | .pending => decide (s.percent = 0)
   | .processing ph => decide (ph.bandLo ≤ s.percent) && decide (s.percent ≤ ph.bandHi)
   | .completed => decide (s.percent = 100)
   | .failed => true)

/-- Modelled from the spec: the transitions the reporter accepts
(spec §4.5): `PENDING` only to `PROCESSING`; `PROCESSING` forward
through the sub-phases, never dropping the percentage inside a phase nor
the exposed percentage on failure; `PROCESSING` to either terminal
status; terminal states absorb. -/
def allowedStep (a b : ProgressState) : Bool :=
  a.valid && b.valid &&
  (match a.status, b.status with
   | .pending, .processing ph => decide (ph = .building_model)
   | .processing ph, .processing ph' =>
       decide (ph.rank ≤ ph'.rank) && (decide (ph ≠ ph') || decide (a.percent ≤ b.percent))
   | .processing _, .completed => true
   | .processing _, .failed => decide (a.percent ≤ b.percent)
   | _, _ => false)

/-- The polling log of `src/backend/TESTING_E2E.md` (expected output):
pending, then processing at 5% (initializing), 10% (building model),
30% (solving), 70% (calculating financial metrics), 100% (complete),
then completed. -/
def e2eTrace : List ProgressState :=
  [⟨.pending, 0, "Task queued"⟩,
   ⟨.processing .building_model, 5, "Initializing optimization..."⟩,
   ⟨.processing .building_model, 10, "Building optimization model..."⟩,
   ⟨.processing .solving, 30, "Solving optimization problem..."⟩,
   ⟨.processing .extracting_financials, 70, "Calculating financial metrics..."⟩,
   ⟨.processing .extracting_financials, 100, "Optimization complete!"⟩,
   ⟨.completed, 100, "Optimization complete!"⟩]

/-- The pointwise order the observer sees along a run: percentage and
status rank both non-decreasing. -/
def obsLe (a b : ProgressState) : Prop :=
  a.percent ≤ b.percent ∧ a.status.rank ≤ b.status.rank

instance : IsTrans ProgressState obsLe :=
  ⟨fun _ _ _ h1 h2 => ⟨le_trans h1.1 h2.1, le_trans h1.2 h2.2⟩⟩

/-! ## The optimization model

The model-builder module (`optimization/lp_formulation.py`) is not among
the repository's files; the formulation is modelled from spec §4.2 and
the constraint list of `PLAN.md` (decision variables, constraints 1-8,
revenue calculation), for one model year of `T` representative hours
(`TESTING.md`: "Current implementation uses 1 year for testing", so the
year-1 objective carries discount exponent `(1+r)^(1-1) = 1`).  The
`LP_RELAXED` / `MILP_STRICT` distinction is spec §4.2 / §9: strict mode
adds, per hour, a binary `battery_mode` variable and the two big-M
exclusivity constraints; relaxed mode omits them entirely
(`src/unnamed/part_001`). -/

/-- The builder's formulation mode (spec §4.2). -/
inductive Mode where
  | LP_RELAXED
  | MILP_STRICT
  deriving DecidableEq

/-- Scenario parameters and hourly profiles the builder consumes. -/
structure Params where
  prod : ℕ → ℚ
  price : ℕ → ℚ
  onsitePrice : ℚ
  icap : ℚ
  ocap : ℚ
  pvCapex : ℚ
  bessCapex : ℚ
  pvMax : Option ℚ
  bessMax : Option ℚ
  bigM : ℚ

/-- A valuation of the decision variables: the two sizes, the six hourly
flows, the state of charge, and (in strict mode) the hourly
`battery_mode` value. -/
structure Asgn where
  pv_size : ℚ
  bess_size : ℚ
  pv_to_grid : ℕ → ℚ
  pv_to_onsite : ℕ → ℚ
  pv_to_battery : ℕ → ℚ
  battery_to_grid : ℕ → ℚ
  battery_to_onsite : ℕ → ℚ
  grid_to_battery : ℕ → ℚ
  soc : ℕ → ℚ
  battery_mode : ℕ → ℚ

/-- One constraint of the built model, named after the PLAN.md
constraint it carries. -/
inductive Constr where
  | sizeNonneg
  | flowNonneg (h : ℕ)
  | pvBalance (h : ℕ)
  | exportCap (h : ℕ)
  | onsiteCap (h : ℕ)
  | socBalance (h : ℕ)
  | socBounds (h : ℕ)
  | socInit
  | pvCeil
  | bessCeil
  | chargeExcl (h : ℕ)
  | dischargeExcl (h : ℕ)
  | modeBinary (h : ℕ)
  deriving DecidableEq

/-- Whether an assignment satisfies one constraint (PLAN.md constraints
1-8 plus variable non-negativity; exclusivity per PLAN.md constraint 6). -/
def Constr.sat (P : Params) (a : Asgn) : Constr → Bool
  | .sizeNonneg => decide (0 ≤ a.pv_size) && decide (0 ≤ a.bess_size)
  | .flowNonneg h =>
      decide (0 ≤ a.pv_to_grid h) && decide (0 ≤ a.pv_to_onsite h) &&
      decide (0 ≤ a.pv_to_battery h) && decide (0 ≤ a.battery_to_grid h) &&
      decide (0 ≤ a.battery_to_onsite h) && decide (0 ≤ a.grid_to_battery h)
  | .pvBalance h =>
      decide (a.pv_size * P.prod h
        = a.pv_to_grid h + a.pv_to_onsite h + a.pv_to_battery h)
  | .exportCap h => decide (a.pv_to_grid h + a.battery_to_grid h ≤ P.icap)
  | .onsiteCap h => decide (a.pv_to_onsite h + a.battery_to_onsite h ≤ P.ocap)
  | .socBalance h =>
      decide (a.soc (h + 1)
        = a.soc h + a.pv_to_battery h + a.grid_to_battery h
          - a.battery_to_grid h - a.battery_to_onsite h)
  | .socBounds h => decide (0 ≤ a.soc h) && decide (a.soc h ≤ a.bess_size)
  | .socInit => decide (a.soc 0 = 0)
  | .pvCeil =>
      match P.pvMax with
      | some m => decide (a.pv_size ≤ m)
      | none => true
  | .bessCeil =>
      match P.bessMax with
      | some m => decide (a.bess_size ≤ m)
      | none => true
  | .chargeExcl h =>
      decide (a.pv_to_battery h + a.grid_to_battery h ≤ P.bigM * a.battery_mode h)
  | .dischargeExcl h =>
      decide (a.battery_to_grid h + a.battery_to_onsite h
        ≤ P.bigM * (1 - a.battery_mode h))
  | .modeBinary h => decide (a.battery_mode h = 0 ∨ a.battery_mode h = 1)

/-- The per-hour exclusivity block added only in `MILP_STRICT` mode. -/
def exclusivityBlock (h : ℕ) : List Constr :=
  [.chargeExcl h, .dischargeExcl h, .modeBinary h]

/-- `build(profiles, scenario, capabilityModels, representativeDays, mode)`
over `T` hours: the base constraints, the optional ceilings, and — in
strict mode only — the exclusivity blocks. -/
def buildModel (mode : Mode) (P : Params) (T : ℕ) : List Constr :=
  [.sizeNonneg, .socInit, .socBounds T] ++
  ((List.range T).flatMap fun h =>
    [.flowNonneg h, .pvBalance h, .exportCap h, .onsiteCap h,
     .socBalance h, .socBounds h]) ++
  (match P.pvMax with | some _ => [Constr.pvCeil] | none => []) ++
  (match P.bessMax with | some _ => [Constr.bessCeil] | none => []) ++
  (match mode with
   | .MILP_STRICT => (List.range T).flatMap exclusivityBlock
   | .LP_RELAXED => [])

/-- The binary variables the builder declares: one `battery_mode[h]` per
hour in strict mode, none in relaxed mode. -/
def binaryVars (mode : Mode) (T : ℕ) : List ℕ :=
  match mode with
  | .MILP_STRICT => List.range T
  | .LP_RELAXED => []

/-- An assignment is feasible for a built model when it satisfies every
constraint in it. -/
def Feasible (P : Params) (C : List Constr) (a : Asgn) : Prop :=
  ∀ c ∈ C, c.sat P a = true

instance (P : Params) (C : List Constr) (a : Asgn) :
    Decidable (Feasible P C a) := by
  unfold Feasible; infer_instance

/-- Hourly net revenue (PLAN.md revenue calculation): grid and on-site
sales minus the cost of charging from the grid. -/
def netRev (P : Params) (a : Asgn) (h : ℕ) : ℚ :=
  (a.pv_to_grid h + a.battery_to_grid h) * P.price h
    + (a.pv_to_onsite h + a.battery_to_onsite h) * P.onsitePrice
    - a.grid_to_battery h * P.price h

/-- The one-year objective: total net revenue (year-1 discount factor
`(1+r)^0 = 1`) minus CAPEX. -/
def objValue (P : Params) (T : ℕ) (a : Asgn) : ℚ :=
  (∑ h ∈ Finset.range T, netRev P a h)
    - (a.pv_size * P.pvCapex + a.bess_size * P.bessCapex)

/-- The zero-investment solution: both sizes and every variable 0. -/
def zeroAsgn : Asgn :=
  ⟨0, 0, fun _ => 0, fun _ => 0, fun _ => 0, fun _ => 0, fun _ => 0,
   fun _ => 0, fun _ => 0, fun _ => 0⟩

/-- Achievable PV revenue per installed MW over the horizon:
`Σ_h price[h] · production[h]`. -/
def pvRevenuePerMw (P : Params) (T : ℕ) : ℚ :=
  ∑ h ∈ Finset.range T, P.price h * P.prod h

/-- Total upward price variation over the horizon — the most one MWh of
storage can arbitrage across `T` hours. -/
def posVariation (P : Params) (T : ℕ) : ℚ :=
  ∑ h ∈ Finset.range (T - 1), max 0 (P.price (h + 1) - P.price h)

/-- A one-hour scenario used to exhibit the relaxation artifact:
no PV production, zero prices, export cap 1, big-M 101. -/
def simParams : Params :=
  ⟨fun _ => 0, fun _ => 0, 0, 1, 0, 0, 0, none, none, 101⟩

/-- Charging 1 MWh from the grid while discharging 1 MWh to the grid in
the same hour (state of charge unchanged), with a given value of the
`battery_mode` variable. -/
def simAsgnMode (mv : ℕ → ℚ) : Asgn :=
  ⟨0, 1, fun _ => 0, fun _ => 0, fun _ => 0, fun _ => 1, fun _ => 0,
   fun _ => 1, fun _ => 0, mv⟩

/-- The simultaneous charge/discharge assignment (the `battery_mode`
variable does not exist in relaxed mode; 0 is a placeholder). -/
def simAsgn : Asgn := simAsgnMode (fun _ => 0)

/-- A 24-hour scenario shaped like the repository's test fixture and
Scenario A economics: flat production 0.5 MWh/MW, flat price $50/MWh,
on-site price $50/MWh, interconnection cap 100 MW, on-site cap 20 MW,
capex $1,000,000/MW and $300,000/MWh, no ceilings. -/
def fixtureParams : Params :=
  ⟨fun _ => 1/2, fun _ => 50, 50, 100, 20, 1000000, 300000, none, none, 101⟩

/-- Every model, whatever its mode and ceilings, contains the base
block: size/SOC-initial constraints and the final SOC bounds, plus the
six per-hour constraint groups. -/
theorem mem_buildModel_of_mem_base {c : Constr} (mode : Mode) (P : Params)
    (T : ℕ)
    (hc : c ∈ ([Constr.sizeNonneg, Constr.socInit, Constr.socBounds T] ++
      ((List.range T).flatMap fun h =>
        [Constr.flowNonneg h, Constr.pvBalance h, Constr.exportCap h,
         Constr.onsiteCap h, Constr.socBalance h, Constr.socBounds h]))) :
    c ∈ buildModel mode P T := by
  unfold buildModel
  exact List.mem_append_left _ (List.mem_append_left _ (List.mem_append_left _ hc))

/-- The head constraints are in every model. -/
theorem head_mem_buildModel (mode : Mode) (P : Params) (T : ℕ) {c : Constr}
    (hc : c ∈ [Constr.sizeNonneg, Constr.socInit, Constr.socBounds T]) :
    c ∈ buildModel mode P T :=
  mem_buildModel_of_mem_base mode P T (List.mem_append_left _ hc)

/-- The per-hour constraints are in every model for every modelled
hour. -/
theorem hourly_mem_buildModel (mode : Mode) (P : Params) (T : ℕ) {h : ℕ}
    (hh : h < T) {c : Constr}
    (hc : c ∈ [Constr.flowNonneg h, Constr.pvBalance h, Constr.exportCap h,
      Constr.onsiteCap h, Constr.socBalance h, Constr.socBounds h]) :
    c ∈ buildModel mode P T :=
  mem_buildModel_of_mem_base mode P T
    (List.mem_append_right _ (List.mem_flatMap.2 ⟨h, List.mem_range.2 hh, hc⟩))

/-- Summation by parts for the price-weighted SOC telescope. -/
theorem sum_mul_telescope (p s : ℕ → ℚ) :
    ∀ n : ℕ, ∑ h ∈ Finset.range (n + 1), p h * (s h - s (h + 1))
      = p 0 * s 0 - p n * s (n + 1)
        + ∑ h ∈ Finset.range n, (p (h + 1) - p h) * s (h + 1) := by
  intro n
  induction n with
  | zero => simp [Finset.sum_range_one]; ring
  | succ n ih =>
      rw [Finset.sum_range_succ, ih, Finset.sum_range_succ]
      ring

/-- The battery-arbitrage bound: with the SOC starting at 0, bounded in
`[0, B]`, and non-negative prices, the price-weighted SOC telescope is
at most `B` times the total upward price variation. -/
theorem telescope_bound (p s : ℕ → ℚ) (B : ℚ) (n : ℕ)
    (hs0 : s 0 = 0) (hB : 0 ≤ B)
    (hsl : ∀ h, h ≤ n + 1 → 0 ≤ s h) (hsu : ∀ h, h ≤ n + 1 → s h ≤ B)
    (hp : ∀ h, h ≤ n → 0 ≤ p h) :
    ∑ h ∈ Finset.range (n + 1), p h * (s h - s (h + 1))
      ≤ B * ∑ h ∈ Finset.range n, max 0 (p (h + 1) - p h) := by
  rw [sum_mul_telescope]
  have h1 : p 0 * s 0 = 0 := by rw [hs0]; ring
  have h2 : 0 ≤ p n * s (n + 1) :=
    mul_nonneg (hp n le_rfl) (hsl (n + 1) le_rfl)
  have h3 : ∑ h ∈ Finset.range n, (p (h + 1) - p h) * s (h + 1)
      ≤ ∑ h ∈ Finset.range n, B * max 0 (p (h + 1) - p h) := by
    apply Finset.sum_le_sum
    intro i hi
    have hiT : i + 1 ≤ n + 1 := by
      have := Finset.mem_range.1 hi
      omega
    rcases le_or_lt (p (i + 1) - p i) 0 with hd | hd
    · have hneg : (p (i + 1) - p i) * s (i + 1) ≤ 0 :=
        mul_nonpos_of_nonpos_of_nonneg hd (hsl _ hiT)
      have hpos : 0 ≤ B * max 0 (p (i + 1) - p i) :=
        mul_nonneg hB (le_max_left _ _)
      linarith
    · rw [max_eq_right hd.le]
      calc (p (i + 1) - p i) * s (i + 1)
          ≤ (p (i + 1) - p i) * B :=
            mul_le_mul_of_nonneg_left (hsu _ hiT) hd.le
        _ = B * (p (i + 1) - p i) := mul_comm _ _
  rw [Finset.mul_sum]
  linarith

/-- Per-hour revenue bound: with the on-site price not exceeding the
grid price, the hour's net revenue is at most the value of the hour's
PV energy plus the price-weighted SOC draw-down. -/
theorem netRev_le_pv_plus_soc {P : Params} {a : Asgn} {h : ℕ}
    (hop : P.onsitePrice ≤ P.price h)
    (hpo : 0 ≤ a.pv_to_onsite h) (hbo : 0 ≤ a.battery_to_onsite h)
    (hbal : a.pv_size * P.prod h
      = a.pv_to_grid h + a.pv_to_onsite h + a.pv_to_battery h)
    (hsoc : a.soc (h + 1)
      = a.soc h + a.pv_to_battery h + a.grid_to_battery h
        - a.battery_to_grid h - a.battery_to_onsite h) :
    netRev P a h ≤ P.price h * (a.pv_size * P.prod h)
      + P.price h * (a.soc h - a.soc (h + 1)) := by
  unfold netRev
  have h1 : (a.pv_to_onsite h + a.battery_to_onsite h) * P.onsitePrice
      ≤ (a.pv_to_onsite h + a.battery_to_onsite h) * P.price h :=
    mul_le_mul_of_nonneg_left hop (add_nonneg hpo hbo)
  have h2 : (a.pv_to_grid h + a.battery_to_grid h) * P.price h
      + (a.pv_to_onsite h + a.battery_to_onsite h) * P.price h
      - a.grid_to_battery h * P.price h
      = P.price h * (a.pv_size * P.prod h)
        + P.price h * (a.soc h - a.soc (h + 1)) := by
    rw [hbal, hsoc]; ring
  linarith

/-! ## Theorems -/

/-- C1 (counterexample): no layer of the repository names the
total-revenue field `total_revenue_over_horizon`: the client reads
`total_revenue_25_years` (ResultsDisplay.jsx line 59) and the planned
payload declares `25_year_total_revenue` (PLAN.md line 133). -/
theorem c1_total_revenue_name_counterexample :
    "total_revenue_over_horizon" ∉ resultsDisplayFields ∧
    "total_revenue_over_horizon" ∉ planResultFields ∧
    "total_revenue_25_years" ∈ resultsDisplayFields ∧
    "25_year_total_revenue" ∈ planResultFields :=
  ⟨by simp [resultsDisplayFields], by simp [planResultFields],
   by simp [resultsDisplayFields], by simp [planResultFields]⟩

/-- C1 (amended): the fields the client reads from a completed solve's
result payload are exactly the spec §6 list with the total-revenue field
named `total_revenue_25_years` instead of `total_revenue_over_horizon`
(the planned backend payload moreover spells it `25_year_total_revenue`,
so the produced and consumed names disagree with each other as well). -/
theorem c1_result_fields_amended :
    (∀ f : String, f ∈ resultsDisplayFields ↔ f ∈ amendedResultFields) ∧
    "total_revenue_25_years" ∈ amendedResultFields ∧
    "total_revenue_25_years" ∉ planResultFields := by
  refine ⟨fun f => ?_, ?_, ?_⟩
  · simp only [resultsDisplayFields, amendedResultFields, specResultFields,
      List.map_cons, List.map_nil, List.mem_cons, List.not_mem_nil,
      reduceIte]
    tauto
  · simp [amendedResultFields, specResultFields]
  · simp [planResultFields]

/-- C9: `formatPercent` renders `'N/A'` exactly on `null`, `undefined`,
`NaN` and the number 0 — a defined IRR of exactly 0 is indistinguishable
from the undefined-IRR sentinel — while every other (finite) value is
rendered as a percentage with two decimals. -/
theorem c9_formatPercent_na_iff :
    ∀ v : JSVal,
      (formatPercent v = .na ↔
        (v = .jsNull ∨ v = .jsUndefined ∨ v = .jsNaN ∨ v = .jsNum 0)) ∧
      ∀ q : ℚ, formatPercent (.jsNum q)
        = if q = 0 then .na else .percent (toFixed2 (q * 100)) := by
  intro v
  refine ⟨?_, fun q => rfl⟩
  cases v with
  | jsNum q =>
      by_cases h : q = 0 <;> simp [formatPercent, h]
  | jsNull => simp [formatPercent]
  | jsUndefined => simp [formatPercent]
  | jsNaN => simp [formatPercent]

/-- C10: the chart aggregation yields one row per distinct year of the
input, each carrying the sum of the revenues with that year; the rows
are invariant under permutation of the input; a null or empty input
renders the "No revenue data available" message. -/
theorem c10_chart_aggregation :
    ∀ l l' : List RevenueEntry, l.Perm l' →
      chartRows l = chartRows l' ∧
      ((chartRows l).map Prod.fst).Nodup ∧
      (∀ y : ℤ, y ∈ (chartRows l).map Prod.fst ↔ y ∈ l.map RevenueEntry.year) ∧
      (∀ p ∈ chartRows l,
        p.2 = ((l.filter (fun e => e.year = p.1)).map RevenueEntry.revenue).sum) ∧
      renderChart none = .noDataMessage ∧
      renderChart (some []) = .noDataMessage := by
  intro l l' hp
  refine ⟨?_, ?_, ?_, ?_, rfl, rfl⟩
  · have hy : (l.map RevenueEntry.year).dedup.insertionSort (· ≤ ·)
        = (l'.map RevenueEntry.year).dedup.insertionSort (· ≤ ·) := by
      refine List.eq_of_perm_of_sorted ?_ (List.sorted_insertionSort _ _)
        (List.sorted_insertionSort _ _)
      exact ((List.perm_insertionSort _ _).trans
        ((hp.map RevenueEntry.year).dedup)).trans
        (List.perm_insertionSort _ _).symm
    have hf : (fun y : ℤ =>
          (y, ((l.filter (fun e => e.year = y)).map RevenueEntry.revenue).sum))
        = (fun y : ℤ =>
          (y, ((l'.filter (fun e => e.year = y)).map RevenueEntry.revenue).sum)) := by
      funext y
      have hfil : ((l.filter (fun e => e.year = y)).map RevenueEntry.revenue).Perm
          ((l'.filter (fun e => e.year = y)).map RevenueEntry.revenue) :=
        (hp.filter _).map _
      rw [hfil.sum_eq]
    unfold chartRows
    rw [hy, hf]
  · have : (chartRows l).map Prod.fst
        = (l.map RevenueEntry.year).dedup.insertionSort (· ≤ ·) := by
      unfold chartRows
      rw [List.map_map]
      simp [Function.comp_def]
    rw [this]
    exact ((List.perm_insertionSort _ _).nodup_iff).2 (List.nodup_dedup _)
  · intro y
    unfold chartRows
    rw [List.map_map]
    simp [Function.comp_def, List.mem_insertionSort, List.mem_dedup]
  · intro p hpmem
    unfold chartRows at hpmem
    rcases List.mem_map.1 hpmem with ⟨y, _, rfl⟩
    rfl

/-- C10 (witness): the aggregation at a concrete permuted pair of
two-year inputs — equal rows either way, summed per year. -/
theorem c10_chart_aggregation_witness :
    chartRows [⟨1, 1, 10⟩, ⟨2, 1, 5⟩, ⟨1, 2, 7⟩]
      = chartRows [⟨1, 2, 7⟩, ⟨2, 1, 5⟩, ⟨1, 1, 10⟩] ∧
    chartRows [⟨1, 1, 10⟩, ⟨2, 1, 5⟩, ⟨1, 2, 7⟩] = [(1, 17), (2, 5)] :=
  ⟨(c10_chart_aggregation [⟨1, 1, 10⟩, ⟨2, 1, 5⟩, ⟨1, 2, 7⟩]
      [⟨1, 2, 7⟩, ⟨2, 1, 5⟩, ⟨1, 1, 10⟩] (by decide)).1,
   by norm_num [chartRows, List.dedup, List.insertionSort, List.orderedInsert,
     List.pwFilter]⟩

/-- C4: the form validation rejects the spec's Scenario A inputs — capex
$0/MW and $0/MWh, on-site cap 0 MW, escalation 0 — flagging each zero
value as `'Must be a positive number'` even though 0 lies inside each
field's declared domain (the inputs themselves carry `min="0"`). -/
theorem c4_zero_values_rejected :
    (validateForm scenarioAForm).pvCapexPerMw = some "Must be a positive number" ∧
    (validateForm scenarioAForm).bessCapexPerMwh = some "Must be a positive number" ∧
    (validateForm scenarioAForm).onsiteLoadMaxMw = some "Must be a positive number" ∧
    (validateForm scenarioAForm).yoyPriceEscalationRate
      = some "Must be a positive number" ∧
    formIsValid scenarioAForm = false := by
  refine ⟨rfl, rfl, rfl, rfl, ?_⟩
  decide

/-- C5 (counterexample): a fully-populated form whose discount rate is
exactly 1 passes validation, so not every scenario with
`discount_rate ≥ 1` is rejected. -/
theorem c5_discount_rate_one_accepted : formIsValid discountOneForm = true := by
  decide

/-- C5 (amended): the discount-rate field is accepted exactly when its
value parses to a number `q` with `0 < q ≤ 1`: missing and non-numeric
values are rejected, as is every rate strictly above 1, but a rate of
exactly 1 is inside the accepted domain; a form only validates when the
discount-rate slot has no error. -/
theorem c5_discount_rate_domain :
    ∀ f : UploadFormData,
      ((validateForm f).discountRate = none ↔
        ∃ q : ℚ, f.discountRate = .num q ∧ 0 < q ∧ q ≤ 1) ∧
      (formIsValid f = true → (validateForm f).discountRate = none) := by
  intro f
  constructor
  · show discountRateError f.discountRate = none ↔ _
    cases hv : f.discountRate with
    | blank => simp [discountRateError, requiredFieldError]
    | nonNumeric => simp [discountRateError, requiredFieldError]
    | num q =>
        simp only [discountRateError, requiredFieldError]
        split_ifs with h1 h2
        · simp only [reduceCtorEq, false_iff]
          rintro ⟨q', hq', h0, h1'⟩
          cases hq'
          rcases h1 with h | h <;> linarith
        · simp only [reduceCtorEq, false_iff]
          rintro ⟨q', hq', h0, h1'⟩
          cases hq'
          linarith
        · push_neg at h1 h2
          simp only [true_iff]
          exact ⟨q, rfl, h2, h1.2⟩
  · intro hvalid
    unfold formIsValid at hvalid
    simp only [Bool.and_eq_true, Option.isNone_iff_eq_none] at hvalid
    tauto

/-- C5 (amended, witness): the concrete valid form with discount rate
exactly 1 indeed has a discount rate inside the accepted domain. -/
theorem c5_discount_rate_domain_witness :
    ∃ q : ℚ, discountOneForm.discountRate = .num q ∧ 0 < q ∧ q ≤ 1 :=
  ((c5_discount_rate_domain discountOneForm).1).1
    ((c5_discount_rate_domain discountOneForm).2 (by decide))

/-- C2 (counterexample): with a single year of net revenue 100, zero
CAPEX and discount rate 0.08, the spec's NPV formula gives 2500/27 ≈
92.59 while the solver objective gives 100 — a mismatch of 200/27,
beyond any small numerical tolerance, because the objective discounts
year-`y` revenue by `(1+r)^(y-1)` and the NPV check by `(1+r)^y`. -/
theorem c2_npv_objective_mismatch :
    npv (cashFlows [100] 0) (2/25) = 2500/27 ∧
    objectiveValue [100] 0 (2/25) = 100 ∧
    objectiveValue [100] 0 (2/25) - npv (cashFlows [100] 0) (2/25) > 1 := by
  refine ⟨?_, ?_, ?_⟩ <;>
    norm_num [npv, cashFlows, objectiveValue, discountedSum]

/-- C2 (amended): the NPV recomputed from the extracted cash-flow series
relates to the solver objective by exactly one year of discounting on
the revenue term, `NPV = (objective + capex)/(1+r) − capex`; the two
agree identically only at discount rate 0, so an `≈`-consistency check
between them at a positive rate would always report a mismatch. -/
theorem c2_npv_objective_relation :
    ∀ (netRevenue : List ℚ) (capex r : ℚ), 1 + r ≠ 0 →
      npv (cashFlows netRevenue capex) r
        = (objectiveValue netRevenue capex r + capex) / (1 + r) - capex ∧
      npv (cashFlows netRevenue capex) 0 = objectiveValue netRevenue capex 0 := by
  intro nr capex r hr
  constructor
  · unfold npv cashFlows objectiveValue
    simp only [discountedSum, discountedSum_succ r hr]
    field_simp
    ring
  · unfold npv cashFlows objectiveValue
    have h0 : (1 : ℚ) + 0 ≠ 0 := by norm_num
    simp only [discountedSum, discountedSum_succ 0 h0]
    norm_num
    ring

/-- C2 (amended, witness): the discounting relation evaluated at the
counterexample's concrete data. -/
theorem c2_npv_objective_relation_witness :
    npv (cashFlows [100] 0) (2/25)
      = (objectiveValue [100] 0 (2/25) + 0) / (1 + 2/25) - 0 :=
  (c2_npv_objective_relation [100] 0 (2/25) (by norm_num)).1

/-- C6: the poll handler delivers a results object exactly when the
terminal status is `completed`; on `failed` it delivers only the
human-readable message (falling back to `'Optimization failed'`), and
the application state after a failed solve holds no results. -/
theorem c6_failure_delivers_no_results :
    ∀ (α : Type) (s : StatusData α) (t : String),
      ((∃ r, pollStep s = PollAction.complete r) ↔ s.status = "completed") ∧
      (s.status = "failed" →
        pollStep s = .fail (s.message.getD "Optimization failed") ∧
        (appApply (appStart α t) (pollStep s)).results = none ∧
        (appApply (appStart α t) (pollStep s)).error
          = some (s.message.getD "Optimization failed")) ∧
      (s.status = "completed" →
        (appApply (appStart α t) (pollStep s)).results = s.results) := by
  intro α s t
  by_cases hc : s.status = "completed"
  · refine ⟨⟨fun _ => hc, fun _ => ⟨s.results, by simp [pollStep, hc]⟩⟩, ?_, ?_⟩
    · intro hf; rw [hc] at hf; exact absurd hf (by decide)
    · intro _; simp [pollStep, hc, appApply, appStart]
  · by_cases hf : s.status = "failed"
    · refine ⟨⟨?_, fun h => absurd h hc⟩, ?_, fun h => absurd h hc⟩
      · rintro ⟨r, hr⟩
        simp [pollStep, hc, hf] at hr
      · intro _
        refine ⟨by simp [pollStep, hc, hf], ?_, ?_⟩ <;>
          simp [pollStep, hc, hf, appApply, appStart]
    · refine ⟨⟨?_, fun h => absurd h hc⟩, fun h => absurd h hf, fun h => absurd h hc⟩
      rintro ⟨r, hr⟩
      simp [pollStep, hc, hf] at hr

/-- A state the reporter exposes keeps its percentage between 0 and
100. -/
theorem valid_percent_bounds {s : ProgressState} (h : s.valid = true) :
    0 ≤ s.percent ∧ s.percent ≤ 100 := by
  unfold ProgressState.valid at h
  simp only [Bool.and_eq_true, decide_eq_true_eq] at h
  exact ⟨h.1.1, h.1.2⟩

/-- Any transition the reporter accepts never decreases the exposed
percentage: inside a phase this is required outright, across phases it
follows from the ordering of the percentage bands. -/
theorem allowedStep_percent_le {a b : ProgressState}
    (h : allowedStep a b = true) : a.percent ≤ b.percent := by
  unfold allowedStep at h
  simp only [Bool.and_eq_true] at h
  obtain ⟨⟨ha, hb⟩, hm⟩ := h
  have ha' := ha; have hb' := hb
  unfold ProgressState.valid at ha' hb'
  simp only [Bool.and_eq_true, decide_eq_true_eq] at ha' hb'
  cases hsa : a.status with
  | pending =>
      cases hsb : b.status with
      | processing ph =>
          rw [hsa] at ha'; rw [hsb] at hb'
          cases ph <;> simp_all [SubPhase.bandLo, SubPhase.bandHi]
      | pending => rw [hsa, hsb] at hm; simp at hm
      | completed => rw [hsa, hsb] at hm; simp at hm
      | failed => rw [hsa, hsb] at hm; simp at hm
  | processing ph =>
      cases hsb : b.status with
      | pending => rw [hsa, hsb] at hm; simp at hm
      | completed =>
          rw [hsa] at ha'; rw [hsb] at hb'
          cases ph <;> simp_all [SubPhase.bandLo, SubPhase.bandHi]
      | failed =>
          rw [hsa, hsb] at hm
          simp only [Bool.or_eq_true, Bool.and_eq_true, decide_eq_true_eq] at hm
          exact hm
      | processing ph' =>
          rw [hsa] at ha'; rw [hsb] at hb'; rw [hsa, hsb] at hm
          simp only [Bool.and_eq_true, Bool.or_eq_true, decide_eq_true_eq] at hm
          cases ph <;> cases ph' <;>
            simp_all [SubPhase.rank, SubPhase.bandLo, SubPhase.bandHi] <;> linarith
  | completed => rw [hsa] at hm; cases hsb : b.status <;> rw [hsb] at hm <;> simp at hm
  | failed => rw [hsa] at hm; cases hsb : b.status <;> rw [hsb] at hm <;> simp at hm

/-- Any accepted transition moves the status forward along
`PENDING → PROCESSING → {COMPLETED | FAILED}`: the rank never drops,
never jumps by more than one step, `PENDING` can only enter
`PROCESSING` (at `building_model`), and the terminal states admit no
further transition. -/
theorem allowedStep_status_order {a b : ProgressState}
    (h : allowedStep a b = true) :
    a.status.rank ≤ b.status.rank ∧ b.status.rank ≤ a.status.rank + 1 ∧
    (a.status = .pending → b.status = .processing .building_model) ∧
    a.status ≠ .completed ∧ a.status ≠ .failed := by
  unfold allowedStep at h
  simp only [Bool.and_eq_true] at h
  obtain ⟨⟨_, _⟩, hm⟩ := h
  cases hsa : a.status <;> cases hsb : b.status <;> rw [hsa, hsb] at hm <;>
    simp_all [TaskStatus.rank, decide_eq_true_eq]

/-- C7: along every run accepted by the reporter, the percentage and the
status stage are monotonically non-decreasing between any two observed
states (not merely adjacent ones); every single transition respects the
order `PENDING → PROCESSING → {COMPLETED | FAILED}` with no stage
skipped and no transition out of a terminal state; and the run recorded
in `TESTING_E2E.md` is such a run. -/
theorem c7_progress_transitions :
    (∀ trace : List ProgressState,
      trace.Chain' (fun a b => allowedStep a b = true) →
      trace.Pairwise obsLe) ∧
    (∀ a b : ProgressState, allowedStep a b = true →
      a.status.rank ≤ b.status.rank ∧ b.status.rank ≤ a.status.rank + 1 ∧
      (a.status = .pending → b.status = .processing .building_model) ∧
      a.status ≠ .completed ∧ a.status ≠ .failed) ∧
    e2eTrace.Chain' (fun a b => allowedStep a b = true) := by
  refine ⟨fun trace hchain => ?_, fun a b h => allowedStep_status_order h, ?_⟩
  · rw [← List.chain'_iff_pairwise]
    exact List.Chain'.imp
      (fun a b h => ⟨allowedStep_percent_le h, (allowedStep_status_order h).1⟩)
      hchain
  · simp only [e2eTrace, List.chain'_cons, List.chain'_singleton]
    exact ⟨by decide, by decide, by decide, by decide, by decide, by decide⟩

/-- C7 (witness): the `TESTING_E2E.md` run is pairwise monotone in
percentage and status stage. -/
theorem c7_progress_transitions_witness : e2eTrace.Pairwise obsLe :=
  c7_progress_transitions.1 e2eTrace c7_progress_transitions.2.2

/-- C3: the builder takes `mode ∈ {LP_RELAXED, MILP_STRICT}` as an
explicit argument; in strict mode it emits, for every hour, the
`battery_mode` binary variable with its binarity constraint and both
big-M exclusivity constraints, while in relaxed mode none of these
exist and simultaneous charge/discharge is feasible — witnessed by a
concrete assignment that satisfies every relaxed constraint with
`grid_to_battery = battery_to_grid = 1` in the same hour, yet violates
the strict exclusivity pair for every value of the binary variable. -/
theorem c3_mode_configuration :
    ∀ (P : Params) (T h : ℕ), h < T →
      (Constr.chargeExcl h ∈ buildModel .MILP_STRICT P T ∧
       Constr.dischargeExcl h ∈ buildModel .MILP_STRICT P T ∧
       Constr.modeBinary h ∈ buildModel .MILP_STRICT P T ∧
       h ∈ binaryVars .MILP_STRICT T) ∧
      (Constr.chargeExcl h ∉ buildModel .LP_RELAXED P T ∧
       Constr.dischargeExcl h ∉ buildModel .LP_RELAXED P T ∧
       Constr.modeBinary h ∉ buildModel .LP_RELAXED P T ∧
       binaryVars .LP_RELAXED T = []) ∧
      (Feasible simParams (buildModel .LP_RELAXED simParams 1) simAsgn ∧
       simAsgn.grid_to_battery 0 = 1 ∧ simAsgn.battery_to_grid 0 = 1 ∧
       ∀ mv : ℕ → ℚ,
         ¬ Feasible simParams (buildModel .MILP_STRICT simParams 1)
           (simAsgnMode mv)) := by
  intro P T h hT
  obtain ⟨prod, price, op, icap, ocap, cpv, cb, pvM, bM, M⟩ := P
  refine ⟨⟨?_, ?_, ?_, ?_⟩, ⟨?_, ?_, ?_, rfl⟩, ?_, rfl, rfl, ?_⟩
  · rcases pvM <;> rcases bM <;>
      · simp only [buildModel, List.mem_append, List.mem_flatMap,
          exclusivityBlock, List.mem_range]
        exact Or.inr ⟨h, hT, by simp⟩
  · rcases pvM <;> rcases bM <;>
      · simp only [buildModel, List.mem_append, List.mem_flatMap,
          exclusivityBlock, List.mem_range]
        exact Or.inr ⟨h, hT, by simp⟩
  · rcases pvM <;> rcases bM <;>
      · simp only [buildModel, List.mem_append, List.mem_flatMap,
          exclusivityBlock, List.mem_range]
        exact Or.inr ⟨h, hT, by simp⟩
  · simpa [binaryVars, List.mem_range] using hT
  · rcases pvM <;> rcases bM <;> simp [buildModel]
  · rcases pvM <;> rcases bM <;> simp [buildModel]
  · rcases pvM <;> rcases bM <;> simp [buildModel]
  · intro c hc
    fin_cases hc <;> norm_num [Constr.sat, simParams, simAsgn, simAsgnMode]
  · intro mv hfeas
    have h1 := hfeas (.modeBinary 0) (by simp [buildModel, exclusivityBlock])
    have h2 := hfeas (.chargeExcl 0) (by simp [buildModel, exclusivityBlock])
    have h3 := hfeas (.dischargeExcl 0) (by simp [buildModel, exclusivityBlock])
    simp only [Constr.sat, simParams, simAsgnMode, decide_eq_true_eq] at h1 h2 h3
    rcases h1 with h1 | h1 <;> rw [h1] at h2 h3 <;> norm_num at h2 h3

/-- C3 (witness): the exclusivity block and the binary variable for
hour 3 are present in a 24-hour strict model and absent from the
relaxed one, and the relaxed model accepts the simultaneous
charge/discharge assignment. -/
theorem c3_mode_configuration_witness :
    Constr.chargeExcl 3 ∈ buildModel .MILP_STRICT simParams 24 ∧
    Constr.chargeExcl 3 ∉ buildModel .LP_RELAXED simParams 24 ∧
    Feasible simParams (buildModel .LP_RELAXED simParams 1) simAsgn :=
  ⟨(c3_mode_configuration simParams 24 3 (by norm_num)).1.1,
   (c3_mode_configuration simParams 24 3 (by norm_num)).2.1.1,
   (c3_mode_configuration simParams 24 3 (by norm_num)).2.2.1⟩

/-- C8: in the relaxed (LP) one-year formulation over the 24-hour test
horizon, whenever CAPEX dominates achievable revenue — the per-MW PV
capex exceeds the value of 24 hours of PV energy and the per-MWh
battery capex exceeds the total upward price variation — and the
on-site price does not beat the grid price, the zero-investment
solution is feasible with objective 0, every feasible solution has
objective at most 0, and any solution at least as good as
zero-investment has PV and BESS sizes exactly 0: the documented
zero-investment outcome is the optimum, not a failure. -/
theorem c8_zero_investment_optimal :
    ∀ (P : Params) (a : Asgn),
      (∀ h, h < 24 → 0 ≤ P.price h) →
      (∀ h, h < 24 → P.onsitePrice ≤ P.price h) →
      pvRevenuePerMw P 24 < P.pvCapex →
      posVariation P 24 < P.bessCapex →
      0 ≤ P.icap → 0 ≤ P.ocap → P.pvMax = none → P.bessMax = none →
      (Feasible P (buildModel .LP_RELAXED P 24) zeroAsgn ∧
       objValue P 24 zeroAsgn = 0) ∧
      (Feasible P (buildModel .LP_RELAXED P 24) a →
        objValue P 24 a ≤ 0 ∧
        (0 ≤ objValue P 24 a → a.pv_size = 0 ∧ a.bess_size = 0)) := by
  intro P a hprice hop hcpv hcb hicap hocap hpvM hbM
  constructor
  · constructor
    · intro c hc
      simp only [buildModel, hpvM, hbM, List.append_nil, List.mem_append,
        List.mem_cons, List.not_mem_nil, or_false, List.mem_flatMap,
        List.mem_range] at hc
      rcases hc with ⟨rfl | rfl | rfl⟩ | ⟨h, hh, rfl | rfl | rfl | rfl | rfl | rfl⟩ <;>
        simp [Constr.sat, zeroAsgn, hicap, hocap]
    · simp [objValue, netRev, zeroAsgn]
  · intro hfeas
    have hsz := hfeas Constr.sizeNonneg
      (head_mem_buildModel Mode.LP_RELAXED P 24 (by simp))
    have hinit := hfeas Constr.socInit
      (head_mem_buildModel Mode.LP_RELAXED P 24 (by simp))
    have hsocT := hfeas (Constr.socBounds 24)
      (head_mem_buildModel Mode.LP_RELAXED P 24 (by simp))
    simp only [Constr.sat, Bool.and_eq_true, decide_eq_true_eq] at hsz hinit hsocT
    obtain ⟨hpv0, hB0⟩ := hsz
    have hsoc : ∀ h, h ≤ 24 → 0 ≤ a.soc h ∧ a.soc h ≤ a.bess_size := by
      intro h hh
      rcases Nat.lt_or_ge h 24 with hlt | hge
      · have := hfeas (Constr.socBounds h)
          (hourly_mem_buildModel Mode.LP_RELAXED P 24 hlt (by simp))
        simpa [Constr.sat, Bool.and_eq_true, decide_eq_true_eq] using this
      · have h24 : h = 24 := le_antisymm hh hge
        subst h24; exact hsocT
    have hflow : ∀ h, h < 24 →
        0 ≤ a.pv_to_grid h ∧ 0 ≤ a.pv_to_onsite h ∧ 0 ≤ a.pv_to_battery h ∧
        0 ≤ a.battery_to_grid h ∧ 0 ≤ a.battery_to_onsite h ∧
        0 ≤ a.grid_to_battery h := by
      intro h hh
      have := hfeas (Constr.flowNonneg h)
        (hourly_mem_buildModel Mode.LP_RELAXED P 24 hh (by simp))
      simp only [Constr.sat, Bool.and_eq_true, decide_eq_true_eq] at this
      tauto
    have hbal : ∀ h, h < 24 → a.pv_size * P.prod h
        = a.pv_to_grid h + a.pv_to_onsite h + a.pv_to_battery h := by
      intro h hh
      have := hfeas (Constr.pvBalance h)
        (hourly_mem_buildModel Mode.LP_RELAXED P 24 hh (by simp))
      simpa [Constr.sat, decide_eq_true_eq] using this
    have hsbal : ∀ h, h < 24 → a.soc (h + 1)
        = a.soc h + a.pv_to_battery h + a.grid_to_battery h
          - a.battery_to_grid h - a.battery_to_onsite h := by
      intro h hh
      have := hfeas (Constr.socBalance h)
        (hourly_mem_buildModel Mode.LP_RELAXED P 24 hh (by simp))
      simpa [Constr.sat, decide_eq_true_eq] using this
    have hstep : ∀ h ∈ Finset.range 24, netRev P a h
        ≤ P.price h * (a.pv_size * P.prod h)
          + P.price h * (a.soc h - a.soc (h + 1)) := by
      intro h hh
      have hh' := Finset.mem_range.1 hh
      exact netRev_le_pv_plus_soc (hop h hh') (hflow h hh').2.1
        (hflow h hh').2.2.2.2.1 (hbal h hh') (hsbal h hh')
    have hsum1 : ∑ h ∈ Finset.range 24, netRev P a h
        ≤ ∑ h ∈ Finset.range 24,
            (P.price h * (a.pv_size * P.prod h)
              + P.price h * (a.soc h - a.soc (h + 1))) :=
      Finset.sum_le_sum hstep
    have hsplit : ∑ h ∈ Finset.range 24,
          (P.price h * (a.pv_size * P.prod h)
            + P.price h * (a.soc h - a.soc (h + 1)))
        = a.pv_size * pvRevenuePerMw P 24
          + ∑ h ∈ Finset.range 24, P.price h * (a.soc h - a.soc (h + 1)) := by
      rw [Finset.sum_add_distrib]
      congr 1
      rw [pvRevenuePerMw, Finset.mul_sum]
      apply Finset.sum_congr rfl
      intro h _
      ring
    have htel : ∑ h ∈ Finset.range 24, P.price h * (a.soc h - a.soc (h + 1))
        ≤ a.bess_size * posVariation P 24 := by
      have hb := telescope_bound P.price a.soc a.bess_size 23 hinit hB0
        (fun h hh => (hsoc h (by omega)).1)
        (fun h hh => (hsoc h (by omega)).2)
        (fun h hh => hprice h (by omega))
      have e1 : Finset.range 24 = Finset.range (23 + 1) := rfl
      have e2 : posVariation P 24
          = ∑ h ∈ Finset.range 23, max 0 (P.price (h + 1) - P.price h) := rfl
      rw [e1, e2]
      exact hb
    have hrev : ∑ h ∈ Finset.range 24, netRev P a h
        ≤ a.pv_size * pvRevenuePerMw P 24 + a.bess_size * posVariation P 24 := by
      rw [hsplit] at hsum1
      linarith
    have hterm1 : a.pv_size * pvRevenuePerMw P 24 ≤ a.pv_size * P.pvCapex :=
      mul_le_mul_of_nonneg_left hcpv.le hpv0
    have hterm2 : a.bess_size * posVariation P 24 ≤ a.bess_size * P.bessCapex :=
      mul_le_mul_of_nonneg_left hcb.le hB0
    have hobj : objValue P 24 a ≤ 0 := by
      unfold objValue
      linarith
    refine ⟨hobj, fun h0 => ?_⟩
    have hu : a.pv_size * (P.pvCapex - pvRevenuePerMw P 24) = 0 := by
      have hge : 0 ≤ a.pv_size * (P.pvCapex - pvRevenuePerMw P 24) :=
        mul_nonneg hpv0 (by linarith)
      have hle : a.pv_size * (P.pvCapex - pvRevenuePerMw P 24) ≤ 0 := by
        have hexp : a.pv_size * (P.pvCapex - pvRevenuePerMw P 24)
            = a.pv_size * P.pvCapex - a.pv_size * pvRevenuePerMw P 24 :=
          mul_sub _ _ _
        have hv : 0 ≤ a.bess_size * (P.bessCapex - posVariation P 24) :=
          mul_nonneg hB0 (by linarith)
        have hvexp : a.bess_size * (P.bessCapex - posVariation P 24)
            = a.bess_size * P.bessCapex - a.bess_size * posVariation P 24 :=
          mul_sub _ _ _
        unfold objValue at h0
        linarith
      linarith
    have hv : a.bess_size * (P.bessCapex - posVariation P 24) = 0 := by
      have hge : 0 ≤ a.bess_size * (P.bessCapex - posVariation P 24) :=
        mul_nonneg hB0 (by linarith)
      have hle : a.bess_size * (P.bessCapex - posVariation P 24) ≤ 0 := by
        have hexp : a.bess_size * (P.bessCapex - posVariation P 24)
            = a.bess_size * P.bessCapex - a.bess_size * posVariation P 24 :=
          mul_sub _ _ _
        have hu' : 0 ≤ a.pv_size * (P.pvCapex - pvRevenuePerMw P 24) :=
          mul_nonneg hpv0 (by linarith)
        have huexp : a.pv_size * (P.pvCapex - pvRevenuePerMw P 24)
            = a.pv_size * P.pvCapex - a.pv_size * pvRevenuePerMw P 24 :=
          mul_sub _ _ _
        unfold objValue at h0
        linarith
      linarith
    constructor
    · rcases mul_eq_zero.1 hu with h | h
      · exact h
      · exact absurd h (by linarith)
    · rcases mul_eq_zero.1 hv with h | h
      · exact h
      · exact absurd h (by linarith)

/-- C8 (witness): on the 24-hour fixture-shaped scenario — where one MW
of PV can earn at most $600 in 24 hours against $1,000,000/MW capex and
the flat price leaves nothing for storage to arbitrage against
$300,000/MWh — the zero-investment solution is feasible with objective
exactly 0. -/
theorem c8_zero_investment_optimal_witness :
    Feasible fixtureParams (buildModel .LP_RELAXED fixtureParams 24) zeroAsgn ∧
    objValue fixtureParams 24 zeroAsgn = 0 :=
  (c8_zero_investment_optimal fixtureParams zeroAsgn
    (fun h _ => by norm_num [fixtureParams])
    (fun h _ => by norm_num [fixtureParams])
    (by norm_num [pvRevenuePerMw, fixtureParams, Finset.sum_const,
      Finset.card_range])
    (by norm_num [posVariation, fixtureParams, Finset.sum_const,
      Finset.card_range])
    (by norm_num [fixtureParams]) (by norm_num [fixtureParams])
    rfl rfl).1

/-- C6 (witness): a failed poll for a concrete payload delivers exactly
the failure message and leaves the application without results. -/
theorem c6_failure_delivers_no_results_witness :
    pollStep (⟨"failed", some 42, some "Solver error", none⟩ : StatusData Unit)
      = .fail "Solver error" ∧
    (appApply (appStart Unit "task-1")
      (pollStep (⟨"failed", some 42, some "Solver error", none⟩ : StatusData Unit))).results
      = none :=
  ⟨((c6_failure_delivers_no_results Unit
      ⟨"failed", some 42, some "Solver error", none⟩ "task-1").2.1 rfl).1,
   ((c6_failure_delivers_no_results Unit
      ⟨"failed", some 42, some "Solver error", none⟩ "task-1").2.1 rfl).2.1⟩

end SolarOpt
